import Mathlib

/-!
Shallow embedding of `xbmc/windowing/gbm/drm/DRMUtils.cpp` (class `CDRMUtils`).

Machine integers (`uint32_t`, `uint16_t`, `int`) are modelled as `Nat` / `Int`;
all values involved (DRM object ids, fourcc codes, mode geometry) are far below
any overflow boundary exercised by the code under study.  The `float` refresh
rate is modelled as an exact rational.  Logging calls are side effects with no
bearing on the data flow and are dropped.
-/

namespace DRMUtils

/-! ### DRM constants (from the public libdrm headers `drm_fourcc.h` / `drm_mode.h`) -/

/-- fourcc_code('N','V','1','2') -/
def DRM_FORMAT_NV12 : Nat := 0x3231564E

/-- fourcc_code('X','R','2','4') -/
def DRM_FORMAT_XRGB8888 : Nat := 0x34325258

/-- fourcc_code('A','R','2','4') -/
def DRM_FORMAT_ARGB8888 : Nat := 0x34325241

/-- DRM_MODE_TYPE_PREFERRED = (1 shifted left 3) -/
def DRM_MODE_TYPE_PREFERRED : Nat := 8

/-- DRM_MODE_FLAG_INTERLACE = (1 shifted left 4) -/
def DRM_MODE_FLAG_INTERLACE : Nat := 16

/-- DRM_MODE_FLAG_3D_MASK = (0x1f shifted left 14): bits 14..18 -/
def DRM_MODE_FLAG_3D_MASK : Nat := 0x7C000

/-- DRM_MODE_FLAG_3D_TOP_AND_BOTTOM = (7 shifted left 14): bits 14..16 -/
def DRM_MODE_FLAG_3D_TOP_AND_BOTTOM : Nat := 0x1C000

/-- DRM_MODE_FLAG_3D_SIDE_BY_SIDE_HALF = (8 shifted left 14): bit 17 -/
def DRM_MODE_FLAG_3D_SIDE_BY_SIDE_HALF : Nat := 0x20000

/-! ### Object wrappers

`CDRMPlane`, `CDRMCrtc`, `CDRMEncoder` cache the driver-reported attributes the
code under study reads (`GetPlaneId`, `GetPossibleCrtcs`, `SupportsFormat`,
`GetCrtcId`, `GetEncoderId`).  We keep exactly those attributes. -/

structure Plane where
  planeId : Nat
  possibleCrtcs : Nat
  formats : List Nat
  deriving DecidableEq, Repr

/-- `CDRMPlane::SupportsFormat`: the plane's format list contains `format`. -/
def Plane.SupportsFormat (p : Plane) (format : Nat) : Bool :=
  p.formats.contains format

structure Crtc where
  crtcId : Nat
  deriving DecidableEq, Repr

structure Encoder where
  encoderId : Nat
  crtcId : Nat
  possibleCrtcs : Nat
  deriving DecidableEq, Repr

/-! ### CDRMUtils::FindPlanes (DRMUtils.cpp lines 177-236)

The loop body is embedded verbatim: for CRTC index `i`,
`videoPlane` is the first plane whose possible-CRTC bitmask has bit `i`
set and which supports NV12; `guiPlane` is the first plane with bit `i`
set whose id differs from `videoPlaneId`, which supports XRGB8888 and,
when `videoPlaneId` is non-zero, also ARGB8888.  `plane & (1 << i)` is the
bitmask test `Nat.testBit`.  The function ends with an unconditional
`return true` (the trailing log line reads `m_gui_plane` whether or not
one was assigned). -/

/-- The member pointers `m_crtc` / `m_video_plane` / `m_gui_plane` that
`FindPlanes` assigns; all start out null (`none`) when `InitDrm` runs. -/
structure PlanesSel where
  crtc : Option Crtc
  videoPlane : Option Plane
  guiPlane : Option Plane
  deriving DecidableEq, Repr

/-- `std::find_if` over `m_planes` for the video-plane lambda at lines 185-191. -/
def findVideoPlane (planes : List Plane) (i : Nat) : Option Plane :=
  planes.find? fun p => p.possibleCrtcs.testBit i && p.SupportsFormat DRM_FORMAT_NV12

/-- `videoPlaneId` (lines 193-196): 0 unless a video-plane candidate was found. -/
def vidOf (planes : List Plane) (i : Nat) : Nat :=
  match findVideoPlane planes i with
  | some p => p.planeId
  | none => 0

/-- `std::find_if` over `m_planes` for the gui-plane lambda at lines 198-207. -/
def findGuiPlane (planes : List Plane) (i : Nat) (videoPlaneId : Nat) : Option Plane :=
  planes.find? fun p =>
    p.possibleCrtcs.testBit i &&
      (p.planeId != videoPlaneId &&
        ((videoPlaneId == 0 || p.SupportsFormat DRM_FORMAT_ARGB8888) &&
          p.SupportsFormat DRM_FORMAT_XRGB8888))

/-- The `for (size_t i = 0; ...)` loop of `FindPlanes`, lines 179-225.
`idx` is the running CRTC index `i`; `sel` carries the member pointers.
The locals `videoPlane` / `guiPlane` of the source body appear here as the
two match scrutinees; the first arm is the both-candidates commit with
`break` (lines 209-215), the second arm the tentative GUI-only commit
guarded by `!m_crtc && m_encoder->GetCrtcId() == crtc->GetCrtcId()`
(lines 217-224), the third arm the no-candidate continue. -/
def findPlanesLoop (encoder : Encoder) (planes : List Plane) :
    List Crtc → Nat → PlanesSel → PlanesSel
  | [], _, sel => sel
  | crtc :: rest, idx, sel =>
    match findVideoPlane planes idx, findGuiPlane planes idx (vidOf planes idx) with
    | some v, some g => { crtc := some crtc, videoPlane := some v, guiPlane := some g }
    | _, some g =>
      if sel.crtc.isNone && encoder.crtcId == crtc.crtcId then
        findPlanesLoop encoder planes rest (idx + 1)
          { sel with crtc := some crtc, guiPlane := some g }
      else
        findPlanesLoop encoder planes rest (idx + 1) sel
    | _, none => findPlanesLoop encoder planes rest (idx + 1) sel

/-- Both candidates exist for CRTC index `i`: the condition under which
the loop body's first arm (commit both and break) fires. -/
def commitBoth (planes : List Plane) (i : Nat) : Bool :=
  (findVideoPlane planes i).isSome && (findGuiPlane planes i (vidOf planes i)).isSome

/-- `CDRMUtils::FindPlanes`: runs the loop from index 0 with all selection
members null, then returns `true` unconditionally (line 235). -/
def FindPlanes (encoder : Encoder) (crtcs : List Crtc) (planes : List Plane) :
    PlanesSel × Bool :=
  (findPlanesLoop encoder planes crtcs 0 ⟨none, none, none⟩, true)

/-! ### Mode data and CDRMUtils::FindPreferredMode (lines 145-175) -/

/-- The fields of `drmModeModeInfo` the code under study reads.  `hdisplay`,
`vdisplay` are `uint16_t`; `clock`, `vrefresh`, `flags`, `type` are `uint32_t`. -/
structure ModeInfo where
  clock : Nat
  hdisplay : Nat
  vdisplay : Nat
  vrefresh : Nat
  flags : Nat
  type : Nat
  deriving DecidableEq, Repr

/-- `current_mode->type & DRM_MODE_TYPE_PREFERRED` is non-zero. -/
def ModeInfo.isPreferred (m : ModeInfo) : Bool :=
  m.type &&& DRM_MODE_TYPE_PREFERRED != 0

/-- `current_mode->hdisplay * current_mode->vdisplay` (line 160). -/
def ModeInfo.area (m : ModeInfo) : Nat :=
  m.hdisplay * m.vdisplay

/-- The `for (int i = 0, area = 0; ...)` loop of `FindPreferredMode`:
`area` is the running best area, `best` the running `m_mode`.  A preferred
mode is taken and the loop breaks; otherwise a strictly larger area
replaces the running best. -/
def findPreferredModeLoop : List ModeInfo → Nat → Option ModeInfo → Option ModeInfo
  | [], _, best => best
  | m :: rest, area, best =>
    if m.isPreferred then some m
    else if m.area > area then findPreferredModeLoop rest m.area (some m)
    else findPreferredModeLoop rest area best

/-- `CDRMUtils::FindPreferredMode`: `m_mode` starts null; the function
returns false exactly when `m_mode` is still null after the loop. -/
def FindPreferredMode (modes : List ModeInfo) : Option ModeInfo :=
  findPreferredModeLoop modes 0 none

/-! ### CDRMUtils::GetResolutionInfo (lines 588-644)

`D3DPRESENTFLAG_*` constants live outside this translation unit; the field
`dwFlags` is set to at most one of four of them, so we model it as an
optional four-way enum, `none` standing for "left at its prior value"
(the branch at lines 629-635 assigns nothing when the mode's 3D bits
intersect neither the top-and-bottom nor the side-by-side-half pattern).
`strMode` (a log-style format string) is not modelled. -/

inductive PresentFlag where
  | mode3DTB
  | mode3DSBS
  | interlaced
  | progressive
  deriving DecidableEq, Repr

structure RESOLUTION_INFO where
  iScreenWidth : Nat
  iScreenHeight : Nat
  iWidth : Nat
  iHeight : Nat
  fRefreshRate : ℚ
  iSubtitles : Nat
  fPixelRatio : ℚ
  bFullScreen : Bool
  dwFlags : Option PresentFlag
  deriving DecidableEq, Repr

/-- The `switch (limit)` block at lines 598-619, guarded by
`limit > 0 && iScreenWidth > 1920 && iScreenHeight > 1080`; returns the
final `(iWidth, iHeight)`.  A `limit` outside 1..4 hits no `case` and
leaves the dimensions unchanged. -/
def limitGuiSize (limit : Int) (mode : ModeInfo) : Nat × Nat :=
  if limit > 0 && mode.hdisplay > 1920 && mode.vdisplay > 1080 then
    if limit == 1 then (1280, 720)
    else if limit == 2 then
      (if mode.vrefresh > 30 then 1280 else 1920, if mode.vrefresh > 30 then 720 else 1080)
    else if limit == 3 then (1920, 1080)
    else if limit == 4 then
      (if mode.vrefresh > 30 then 1920 else mode.hdisplay,
       if mode.vrefresh > 30 then 1080 else mode.vdisplay)
    else (mode.hdisplay, mode.vdisplay)
  else (mode.hdisplay, mode.vdisplay)

/-- The `dwFlags` assignment at lines 629-639. -/
def modeFlagsToPresentFlag (flags : Nat) : Option PresentFlag :=
  if flags &&& DRM_MODE_FLAG_3D_MASK != 0 then
    if flags &&& DRM_MODE_FLAG_3D_TOP_AND_BOTTOM != 0 then some .mode3DTB
    else if flags &&& DRM_MODE_FLAG_3D_SIDE_BY_SIDE_HALF != 0 then some .mode3DSBS
    else none
  else if flags &&& DRM_MODE_FLAG_INTERLACE != 0 then some .interlaced
  else some .progressive

/-- `CDRMUtils::GetResolutionInfo`.  `limit` is the external
`videoscreen.limitguisize` setting.  `0.965 * iHeight` truncated to `int`
is modelled as exact rational arithmetic floored (the double 0.965 is
treated as the exact value 965/1000). -/
def GetResolutionInfo (limit : Int) (mode : ModeInfo) : RESOLUTION_INFO :=
  let wh := limitGuiSize limit mode
  { iScreenWidth := mode.hdisplay
    iScreenHeight := mode.vdisplay
    iWidth := wh.1
    iHeight := wh.2
    fRefreshRate :=
      if mode.clock % 5 != 0 then (mode.vrefresh : ℚ) * (1000 / 1001)
      else (mode.vrefresh : ℚ)
    iSubtitles := 965 * wh.2 / 1000
    fPixelRatio := 1
    bFullScreen := true
    dwFlags := modeFlagsToPresentFlag mode.flags }

/-! ### CDRMUtils::DrmFbGetFromBo (lines 59-143) and DrmFbDestroyCallback (lines 23-35)

The gbm buffer object's mutable state is its user-data slot (a `drm_fb`
pointer plus the registered destroy callback).  The driver's responses to
`drmModeAddFB2WithModifiers` and `drmModeAddFB2` for this buffer's
parameters are abstracted as fixed `Option` outcomes (the buffer being
unmodified, the ioctl arguments are identical on every call): `some id`
models `ret >= 0` writing `id` into `fb->fb_id`, `none` models `ret < 0`.
The embedding additionally records which registration calls were issued
(`attempts`) and whether the freshly `new`-ed descriptor was `delete`-d
(`descriptorReleased`), so that the call-ordering and release behaviour
are visible in the result.  `DrmFbDestroyCallback` removes the driver
framebuffer and frees the descriptor but does not clear the buffer's
user-data slot; the slot is only overwritten by `gbm_bo_set_user_data`
on a successful registration (line 140). -/

structure DrmFb where
  format : Nat
  fb_id : Nat
  deriving DecidableEq, Repr

/-- The buffer's user-data slot and whether `DrmFbDestroyCallback` is
currently registered on it (both are set together by
`gbm_bo_set_user_data(bo, fb, DrmFbDestroyCallback)`). -/
structure BoState where
  userData : Option DrmFb
  callbackAttached : Bool
  deriving DecidableEq, Repr

/-- Driver outcomes for the two registration ioctls on this buffer. -/
structure DrmEnv where
  addFB2WithModifiers : Option Nat
  addFB2 : Option Nat
  deriving DecidableEq, Repr

inductive RegAttempt where
  | modifierAware
  | legacy
  deriving DecidableEq, Repr

structure FbResult where
  fb : Option DrmFb
  state : BoState
  attempts : List RegAttempt
  descriptorReleased : Bool
  deriving DecidableEq, Repr

/-- Lines 72-140: allocate the descriptor with `fb->format` set to the gui
plane's format, try `drmModeAddFB2WithModifiers`, fall back to
`drmModeAddFB2`, and on double failure `delete` the descriptor and return
null leaving the buffer state `s` untouched. -/
def drmFbRegister (env : DrmEnv) (guiFormat : Nat) (s : BoState) : FbResult :=
  match env.addFB2WithModifiers with
  | some id =>
    { fb := some ⟨guiFormat, id⟩
      state := { userData := some ⟨guiFormat, id⟩, callbackAttached := true }
      attempts := [.modifierAware]
      descriptorReleased := false }
  | none =>
    match env.addFB2 with
    | some id =>
      { fb := some ⟨guiFormat, id⟩
        state := { userData := some ⟨guiFormat, id⟩, callbackAttached := true }
        attempts := [.modifierAware, .legacy]
        descriptorReleased := false }
    | none =>
      { fb := none
        state := s
        attempts := [.modifierAware, .legacy]
        descriptorReleased := true }

/-- `CDRMUtils::DrmFbGetFromBo`.  Fast path (lines 62-69): a cached
descriptor whose format equals the gui plane's format is returned as-is
with no registration; a cached descriptor of a different format is first
destroyed via `DrmFbDestroyCallback` (which leaves the user-data slot
pointing at the freed descriptor) before re-registration. -/
def DrmFbGetFromBo (env : DrmEnv) (guiFormat : Nat) (s : BoState) : FbResult :=
  match s.userData with
  | some fb =>
    if guiFormat == fb.format then
      { fb := some fb, state := s, attempts := [], descriptorReleased := false }
    else
      drmFbRegister env guiFormat s
  | none => drmFbRegister env guiFormat s

/-! ## Theorems -/

/-! ### Loop lemmas for `FindPreferredMode` -/

theorem findPreferredModeLoop_someBest (ms : List ModeInfo) (area : Nat) (b : ModeInfo) :
    (findPreferredModeLoop ms area (some b)).isSome := by
  induction ms generalizing area b with
  | nil => simp [findPreferredModeLoop]
  | cons m rest ih =>
    by_cases hp : m.isPreferred
    · simp [findPreferredModeLoop, hp]
    · by_cases ha : m.area > area
      · simpa [findPreferredModeLoop, hp, ha] using ih m.area m
      · simpa [findPreferredModeLoop, hp, ha] using ih area b

theorem findPreferredModeLoop_const (ms : List ModeInfo) (area : Nat) (best : Option ModeInfo)
    (h : ∀ m ∈ ms, m.isPreferred = false ∧ m.area ≤ area) :
    findPreferredModeLoop ms area best = best := by
  induction ms with
  | nil => rfl
  | cons m rest ih =>
    have hm := h m (List.mem_cons_self m rest)
    have hrest := fun x hx => h x (List.mem_cons_of_mem m hx)
    have hlt : ¬(m.area > area) := by omega
    simpa [findPreferredModeLoop, hm.1, hlt] using ih hrest

theorem findPreferredModeLoop_progress (ms : List ModeInfo) (area : Nat)
    (best : Option ModeInfo) (h : ∃ m ∈ ms, m.isPreferred = true ∨ area < m.area) :
    (findPreferredModeLoop ms area best).isSome := by
  induction ms generalizing area best with
  | nil => simp at h
  | cons m rest ih =>
    by_cases hp : m.isPreferred
    · simp [findPreferredModeLoop, hp]
    · by_cases ha : m.area > area
      · simpa [findPreferredModeLoop, hp, ha] using findPreferredModeLoop_someBest rest m.area m
      · rcases h with ⟨m0, hm0, hcase⟩
        rcases List.mem_cons.mp hm0 with rfl | hm0'
        · rcases hcase with hcase | hcase
          · exact absurd hcase (by simpa using hp)
          · exact absurd hcase ha
        · simpa [findPreferredModeLoop, hp, ha] using ih area best ⟨m0, hm0', hcase⟩

theorem findPreferredModeLoop_pref (ms : List ModeInfo) :
    ∀ (i : Nat) (mo : ModeInfo), ms[i]? = some mo → mo.isPreferred = true →
    (∀ k ∈ ms.take i, k.isPreferred = false) →
    ∀ area best, findPreferredModeLoop ms area best = some mo := by
  induction ms with
  | nil => intro i mo h; simp at h
  | cons m rest ih =>
    intro i mo hm hp hprev area best
    cases i with
    | zero =>
      rw [List.getElem?_cons_zero] at hm
      cases hm
      simp [findPreferredModeLoop, hp]
    | succ j =>
      rw [List.getElem?_cons_succ] at hm
      have hm0 : m.isPreferred = false := hprev m (by simp [List.take_succ_cons])
      have hprev' : ∀ k ∈ rest.take j, k.isPreferred = false := fun k hk =>
        hprev k (by simp [List.take_succ_cons, hk])
      have hrec := ih j mo hm hp hprev'
      by_cases ha : m.area > area
      · simpa [findPreferredModeLoop, hm0, ha] using hrec m.area (some m)
      · simpa [findPreferredModeLoop, hm0, ha] using hrec area best

theorem findPreferredModeLoop_max (ms : List ModeInfo) :
    ∀ (i : Nat) (mo : ModeInfo) (area : Nat) (best : Option ModeInfo), ms[i]? = some mo →
    (∀ x ∈ ms, x.isPreferred = false) → area < mo.area →
    (∀ k ∈ ms.take i, k.area < mo.area) → (∀ x ∈ ms, x.area ≤ mo.area) →
    findPreferredModeLoop ms area best = some mo := by
  induction ms with
  | nil => intro i mo area best h; simp at h
  | cons m rest ih =>
    intro i mo area best hm hnp harea hstrict hle
    have hm0 : m.isPreferred = false := hnp m (List.mem_cons_self m rest)
    cases i with
    | zero =>
      rw [List.getElem?_cons_zero] at hm
      cases hm
      have hconst : findPreferredModeLoop rest m.area (some m) = some m :=
        findPreferredModeLoop_const rest m.area (some m) fun x hx =>
          ⟨hnp x (List.mem_cons_of_mem m hx), hle x (List.mem_cons_of_mem m hx)⟩
      simpa [findPreferredModeLoop, hm0, harea] using hconst
    | succ j =>
      rw [List.getElem?_cons_succ] at hm
      have hmlt : m.area < mo.area := hstrict m (by simp [List.take_succ_cons])
      have hstrict' : ∀ k ∈ rest.take j, k.area < mo.area := fun k hk =>
        hstrict k (by simp [List.take_succ_cons, hk])
      have hnp' : ∀ x ∈ rest, x.isPreferred = false := fun x hx =>
        hnp x (List.mem_cons_of_mem m hx)
      have hle' : ∀ x ∈ rest, x.area ≤ mo.area := fun x hx =>
        hle x (List.mem_cons_of_mem m hx)
      by_cases ha : m.area > area
      · simpa [findPreferredModeLoop, hm0, ha] using
          ih j mo m.area (some m) hm hnp' hmlt hstrict' hle'
      · simpa [findPreferredModeLoop, hm0, ha] using
          ih j mo area best hm hnp' harea hstrict' hle'

/-- Claim C7, amended: the first mode carrying the driver's preferred flag
is chosen and scanning stops (the list beyond it is irrelevant); with no
preferred flag anywhere, the earliest mode of maximal positive
width-times-height product is retained; the operation fails exactly when
no mode is flagged preferred and every mode has a zero width-times-height
product — in particular when the mode list is empty, but also on nonempty
lists of zero-area modes. -/
theorem findPreferredMode_spec (ms : List ModeInfo) :
    (∀ i mo, ms[i]? = some mo → mo.isPreferred = true →
      (∀ k ∈ ms.take i, k.isPreferred = false) →
      FindPreferredMode ms = some mo ∧ FindPreferredMode (ms.take (i + 1)) = some mo) ∧
    (∀ i mo, ms[i]? = some mo → (∀ x ∈ ms, x.isPreferred = false) → 0 < mo.area →
      (∀ k ∈ ms.take i, k.area < mo.area) → (∀ x ∈ ms, x.area ≤ mo.area) →
      FindPreferredMode ms = some mo) ∧
    (FindPreferredMode ms = none ↔ ∀ x ∈ ms, x.isPreferred = false ∧ x.area = 0) := by
  refine ⟨?_, ?_, ?_⟩
  · intro i mo hm hp hprev
    constructor
    · exact findPreferredModeLoop_pref ms i mo hm hp hprev 0 none
    · refine findPreferredModeLoop_pref (ms.take (i + 1)) i mo ?_ hp ?_ 0 none
      · rw [List.getElem?_take]
        simpa using hm
      · intro k hk
        rw [List.take_take] at hk
        exact hprev k (by simpa using hk)
  · intro i mo hm hnp hpos hstrict hle
    exact findPreferredModeLoop_max ms i mo 0 none hm hnp hpos hstrict hle
  · constructor
    · intro hnone x hx
      constructor
      · by_contra hp
        have hp' : x.isPreferred = true := by
          revert hp; cases x.isPreferred <;> simp
        have := findPreferredModeLoop_progress ms 0 none ⟨x, hx, Or.inl hp'⟩
        rw [show findPreferredModeLoop ms 0 none = FindPreferredMode ms from rfl,
          hnone] at this
        simp at this
      · by_contra ha
        have := findPreferredModeLoop_progress ms 0 none
          ⟨x, hx, Or.inr (Nat.pos_of_ne_zero ha)⟩
        rw [show findPreferredModeLoop ms 0 none = FindPreferredMode ms from rfl,
          hnone] at this
        simp at this
    · intro h
      exact findPreferredModeLoop_const ms 0 none fun m hm =>
        ⟨(h m hm).1, by have := (h m hm).2; omega⟩

/-- Claim C7, counterexample to the claim as stated: a nonempty mode list
whose only mode is unflagged with a zero width-times-height product makes
`FindPreferredMode` fail, so failure is not equivalent to the list being
empty. -/
theorem findPreferredMode_nonempty_failure :
    FindPreferredMode [⟨148500, 1920, 0, 60, 0, 0⟩] = none ∧
    ([⟨148500, 1920, 0, 60, 0, 0⟩] : List ModeInfo) ≠ [] := by
  decide

/-- Claim C7 witness: the flagged mode at index 1 wins over a larger-area
scan; with no flags the earliest 1920x1080 mode wins over a later tie; a
zero-area singleton fails. -/
theorem findPreferredMode_spec_witness :
    FindPreferredMode [⟨0, 1280, 720, 60, 0, 0⟩, ⟨0, 1920, 1080, 60, 0, 8⟩] =
      some ⟨0, 1920, 1080, 60, 0, 8⟩ ∧
    FindPreferredMode [⟨0, 1280, 720, 60, 0, 0⟩, ⟨0, 1920, 1080, 60, 0, 0⟩,
      ⟨0, 1920, 1080, 30, 0, 0⟩] = some ⟨0, 1920, 1080, 60, 0, 0⟩ ∧
    FindPreferredMode [⟨148500, 1920, 0, 60, 0, 0⟩] = none := by
  refine ⟨?_, ?_, ?_⟩
  · exact ((findPreferredMode_spec _).1 1 ⟨0, 1920, 1080, 60, 0, 8⟩ (by decide) (by decide)
      (by decide)).1
  · exact (findPreferredMode_spec _).2.1 1 ⟨0, 1920, 1080, 60, 0, 0⟩ (by decide) (by decide)
      (by decide) (by decide) (by decide)
  · exact (findPreferredMode_spec _).2.2.mpr (by decide)

/-- Claim C1, amended: `FindPlanes` reports success unconditionally — its
only `return` statement is `return true`, reached whether or not any CRTC
yielded a GUI plane. -/
theorem findPlanes_returnsTrue (e : Encoder) (crtcs : List Crtc) (planes : List Plane) :
    (FindPlanes e crtcs planes).2 = true := rfl

/-- Claim C1, counterexample to the claim as stated: with one CRTC and an
empty plane list, no GUI plane (and no CRTC) is committed, yet `FindPlanes`
still returns `true`; success is therefore not contingent on a GUI plane
having been committed. -/
theorem findPlanes_trueWithoutGuiPlane :
    (FindPlanes ⟨1, 5, 0⟩ [⟨5⟩] []).2 = true ∧
    (FindPlanes ⟨1, 5, 0⟩ [⟨5⟩] []).1.guiPlane = none ∧
    (FindPlanes ⟨1, 5, 0⟩ [⟨5⟩] []).1.crtc = none := by
  decide

/-- Claim C6: the GUI-size-limit downscale applies only when the limit
setting is positive and the native mode exceeds 1920x1080 in both
dimensions; tier 3 with native 3840x2160 yields 1920x1080 for every
refresh rate and clock, and tier 0 leaves the same input unchanged. -/
theorem getResolutionInfo_guiSizeLimit (m : ModeInfo) (limit : Int) :
    (m.hdisplay = 3840 → m.vdisplay = 2160 →
      (GetResolutionInfo 3 m).iWidth = 1920 ∧ (GetResolutionInfo 3 m).iHeight = 1080 ∧
      (GetResolutionInfo 0 m).iWidth = 3840 ∧ (GetResolutionInfo 0 m).iHeight = 2160) ∧
    (¬(0 < limit ∧ 1920 < m.hdisplay ∧ 1080 < m.vdisplay) →
      (GetResolutionInfo limit m).iWidth = m.hdisplay ∧
      (GetResolutionInfo limit m).iHeight = m.vdisplay) := by
  constructor
  · intro hw hh
    refine ⟨?_, ?_, ?_, ?_⟩ <;> simp [GetResolutionInfo, limitGuiSize, hw, hh]
  · intro h
    have hc : (decide (limit > 0) && decide (m.hdisplay > 1920) && decide (m.vdisplay > 1080))
        = false := by
      rw [Bool.eq_false_iff]
      intro hcontra
      apply h
      simpa [Bool.and_eq_true, decide_eq_true_eq, and_assoc] using hcontra
    constructor <;> simp [GetResolutionInfo, limitGuiSize, hc]

/-- Claim C6 witness: tier 3 caps a 3840x2160 mode to 1920x1080, tier 0
leaves it unchanged, and a non-exceeding native mode is never downscaled. -/
theorem getResolutionInfo_guiSizeLimit_witness :
    (GetResolutionInfo 3 ⟨297000, 3840, 2160, 60, 0, 0⟩).iWidth = 1920 ∧
    (GetResolutionInfo 3 ⟨297000, 3840, 2160, 60, 0, 0⟩).iHeight = 1080 ∧
    (GetResolutionInfo 0 ⟨297000, 3840, 2160, 60, 0, 0⟩).iWidth = 3840 ∧
    (GetResolutionInfo 0 ⟨297000, 3840, 2160, 60, 0, 0⟩).iHeight = 2160 ∧
    (GetResolutionInfo 0 ⟨148500, 1920, 1080, 60, 0, 0⟩).iWidth = 1920 := by
  have h1 := (getResolutionInfo_guiSizeLimit ⟨297000, 3840, 2160, 60, 0, 0⟩ 3).1 rfl rfl
  have h2 := (getResolutionInfo_guiSizeLimit ⟨148500, 1920, 1080, 60, 0, 0⟩ 0).2
    (by norm_num)
  exact ⟨h1.1, h1.2.1, h1.2.2.1, h1.2.2.2, h2.1⟩

/-- Claim C8: the output refresh rate is the nominal `vrefresh` scaled by
1000/1001 when the raw pixel clock is not a multiple of 5, and the nominal
rate unchanged when it is (float arithmetic modelled as exact rationals). -/
theorem getResolutionInfo_refreshRate (limit : Int) (m : ModeInfo) :
    (m.clock % 5 ≠ 0 →
      (GetResolutionInfo limit m).fRefreshRate = (m.vrefresh : ℚ) * (1000 / 1001)) ∧
    (m.clock % 5 = 0 → (GetResolutionInfo limit m).fRefreshRate = (m.vrefresh : ℚ)) := by
  constructor
  · intro h; simp [GetResolutionInfo, bne_iff_ne, h]
  · intro h; simp [GetResolutionInfo, h]

/-- Claim C8 witness: nominal 60 Hz with clock 74176 (not a multiple of 5)
yields 60000/1001 (approximately 59.94 Hz); clock 74250 yields exactly 60. -/
theorem getResolutionInfo_refreshRate_witness :
    (GetResolutionInfo 0 ⟨74176, 1280, 720, 60, 0, 0⟩).fRefreshRate = 60000 / 1001 ∧
    (GetResolutionInfo 0 ⟨74250, 1280, 720, 60, 0, 0⟩).fRefreshRate = 60 := by
  constructor
  · rw [(getResolutionInfo_refreshRate 0 ⟨74176, 1280, 720, 60, 0, 0⟩).1 (by norm_num)]
    norm_num
  · rw [(getResolutionInfo_refreshRate 0 ⟨74250, 1280, 720, 60, 0, 0⟩).2 (by norm_num)]
    norm_num

/-- Claim C9, amended: the output flag is chosen with priority
top-and-bottom 3D, then side-by-side-half 3D, then interlaced, then
progressive, and a mode carrying any 3D bit never yields the interlaced
flag; however, a mode whose 3D-mask bits intersect neither the
top-and-bottom pattern (bits 14-16) nor the side-by-side-half pattern
(bit 17) — possible only for the undefined 3D field value with bit 18
alone — leaves the output flag unassigned, so not every input yields one
of the four flags. -/
theorem getResolutionInfo_flagsPriority (limit : Int) (m : ModeInfo) :
    (m.flags &&& DRM_MODE_FLAG_3D_MASK ≠ 0 →
      m.flags &&& DRM_MODE_FLAG_3D_TOP_AND_BOTTOM ≠ 0 →
      (GetResolutionInfo limit m).dwFlags = some PresentFlag.mode3DTB) ∧
    (m.flags &&& DRM_MODE_FLAG_3D_MASK ≠ 0 →
      m.flags &&& DRM_MODE_FLAG_3D_TOP_AND_BOTTOM = 0 →
      m.flags &&& DRM_MODE_FLAG_3D_SIDE_BY_SIDE_HALF ≠ 0 →
      (GetResolutionInfo limit m).dwFlags = some PresentFlag.mode3DSBS) ∧
    (m.flags &&& DRM_MODE_FLAG_3D_MASK ≠ 0 →
      m.flags &&& DRM_MODE_FLAG_3D_TOP_AND_BOTTOM = 0 →
      m.flags &&& DRM_MODE_FLAG_3D_SIDE_BY_SIDE_HALF = 0 →
      (GetResolutionInfo limit m).dwFlags = none) ∧
    (m.flags &&& DRM_MODE_FLAG_3D_MASK = 0 → m.flags &&& DRM_MODE_FLAG_INTERLACE ≠ 0 →
      (GetResolutionInfo limit m).dwFlags = some PresentFlag.interlaced) ∧
    (m.flags &&& DRM_MODE_FLAG_3D_MASK = 0 → m.flags &&& DRM_MODE_FLAG_INTERLACE = 0 →
      (GetResolutionInfo limit m).dwFlags = some PresentFlag.progressive) ∧
    (m.flags &&& DRM_MODE_FLAG_3D_MASK ≠ 0 →
      (GetResolutionInfo limit m).dwFlags ≠ some PresentFlag.interlaced) := by
  refine ⟨?_, ?_, ?_, ?_, ?_, ?_⟩ <;> intros <;>
    simp_all only [GetResolutionInfo, modeFlagsToPresentFlag, bne_iff_ne, ne_eq,
      not_false_eq_true, if_true, if_false, ite_not] <;>
    (try split) <;> simp_all

/-- Claim C9 counterexample to the claim as stated: flags 0x40000 (3D field
value 16, inside the 3D mask) assigns no output flag at all — the output is
neither a 3D flag nor any of the four flags. -/
theorem getResolutionInfo_flags_counterexample :
    ((0x40000 : Nat) &&& DRM_MODE_FLAG_3D_MASK ≠ 0) ∧
    (GetResolutionInfo 0 ⟨297000, 1920, 1080, 60, 0x40000, 0⟩).dwFlags = none := by
  constructor
  · decide
  · rfl

/-- Claim C9 witness: each defined pattern maps to its flag with the stated
priority, and the undefined bit-18-only 3D field maps to no flag. -/
theorem getResolutionInfo_flagsPriority_witness :
    (GetResolutionInfo 0 ⟨0, 1280, 720, 60, 0x1C000, 0⟩).dwFlags = some PresentFlag.mode3DTB ∧
    (GetResolutionInfo 0 ⟨0, 1280, 720, 60, 0x20000, 0⟩).dwFlags = some PresentFlag.mode3DSBS ∧
    (GetResolutionInfo 0 ⟨0, 1280, 720, 60, 0x40000, 0⟩).dwFlags = none ∧
    (GetResolutionInfo 0 ⟨0, 1280, 720, 60, 16, 0⟩).dwFlags = some PresentFlag.interlaced ∧
    (GetResolutionInfo 0 ⟨0, 1280, 720, 60, 0, 0⟩).dwFlags = some PresentFlag.progressive := by
  refine ⟨?_, ?_, ?_, ?_, ?_⟩
  · exact (getResolutionInfo_flagsPriority 0 _).1 (by decide) (by decide)
  · exact (getResolutionInfo_flagsPriority 0 _).2.1 (by decide) (by decide) (by decide)
  · exact (getResolutionInfo_flagsPriority 0 _).2.2.1 (by decide) (by decide) (by decide)
  · exact (getResolutionInfo_flagsPriority 0 _).2.2.2.1 (by decide) (by decide)
  · exact (getResolutionInfo_flagsPriority 0 _).2.2.2.2.1 (by decide) (by decide)

/-- Claim C4: a cached descriptor whose format equals the GUI plane's
format is returned as-is with no state change and no registration attempt,
and a second call on the buffer state left by any first call returns the
same framebuffer (and leaves the state where the first call left it). -/
theorem drmFbGetFromBo_idempotent (env : DrmEnv) (guiFormat : Nat) (s : BoState) :
    (∀ fb, s.userData = some fb → fb.format = guiFormat →
      (DrmFbGetFromBo env guiFormat s).fb = some fb ∧
      (DrmFbGetFromBo env guiFormat s).state = s ∧
      (DrmFbGetFromBo env guiFormat s).attempts = []) ∧
    ((DrmFbGetFromBo env guiFormat ((DrmFbGetFromBo env guiFormat s).state)).fb =
      (DrmFbGetFromBo env guiFormat s).fb) ∧
    ((DrmFbGetFromBo env guiFormat ((DrmFbGetFromBo env guiFormat s).state)).state =
      (DrmFbGetFromBo env guiFormat s).state) := by
  have hreg : ∀ t : BoState,
      ((drmFbRegister env guiFormat t).fb = none ∧ (drmFbRegister env guiFormat t).state = t) ∨
      (∃ fb, (drmFbRegister env guiFormat t).fb = some fb ∧ fb.format = guiFormat ∧
        (drmFbRegister env guiFormat t).state = ⟨some fb, true⟩) := by
    intro t
    cases h1 : env.addFB2WithModifiers with
    | some id => exact Or.inr ⟨⟨guiFormat, id⟩, by simp [drmFbRegister, h1]⟩
    | none =>
      cases h2 : env.addFB2 with
      | some id => exact Or.inr ⟨⟨guiFormat, id⟩, by simp [drmFbRegister, h1, h2]⟩
      | none => exact Or.inl (by simp [drmFbRegister, h1, h2])
  refine ⟨?_, ?_⟩
  · intro fb hs hf
    refine ⟨?_, ?_, ?_⟩ <;> simp [DrmFbGetFromBo, hs, hf]
  · have hsecond : ∀ t : BoState,
        ((DrmFbGetFromBo env guiFormat t).fb = none ∧
          (DrmFbGetFromBo env guiFormat t).state = t) ∨
        (∃ fb, (DrmFbGetFromBo env guiFormat t).fb = some fb ∧ fb.format = guiFormat ∧
          (DrmFbGetFromBo env guiFormat t).state.userData = some fb) := by
      intro t
      cases ht : t.userData with
      | none =>
        rcases hreg t with ⟨h1, h2⟩ | ⟨fb, h1, h2, h3⟩
        · exact Or.inl (by simp [DrmFbGetFromBo, ht, h1, h2])
        · exact Or.inr ⟨fb, by simp [DrmFbGetFromBo, ht, h1, h2, h3]⟩
      | some fb0 =>
        by_cases hf : guiFormat == fb0.format
        · refine Or.inr ⟨fb0, ?_⟩
          have hor : fb0.format = guiFormat := by
            have := of_decide_eq_true hf
            omega
          simp [DrmFbGetFromBo, ht, hf, hor]
        · rcases hreg t with ⟨h1, h2⟩ | ⟨fb, h1, h2, h3⟩
          · exact Or.inl (by simp [DrmFbGetFromBo, ht, hf, h1, h2])
          · exact Or.inr ⟨fb, by simp [DrmFbGetFromBo, ht, hf, h1, h2, h3]⟩
    rcases hsecond s with ⟨h1, h2⟩ | ⟨fb, h1, h2, h3⟩
    · exact ⟨by rw [h2], by rw [h2]; exact h2⟩
    · obtain ⟨st, hst⟩ : ∃ st, (DrmFbGetFromBo env guiFormat s).state = st := ⟨_, rfl⟩
      rw [hst] at h3
      constructor
      · rw [hst, h1]
        simp [DrmFbGetFromBo, h3, h2]
      · rw [hst]
        simp [DrmFbGetFromBo, h3, h2]

/-- Claim C4 witness: a buffer carrying a format-99 framebuffer, queried
while the GUI plane format is 99, gets the same framebuffer back with the
state untouched and no registration attempted; a repeated call agrees. -/
theorem drmFbGetFromBo_idempotent_witness :
    (DrmFbGetFromBo ⟨some 4, some 7⟩ 99 ⟨some ⟨99, 3⟩, true⟩).fb = some ⟨99, 3⟩ ∧
    (DrmFbGetFromBo ⟨some 4, some 7⟩ 99 ⟨some ⟨99, 3⟩, true⟩).state = ⟨some ⟨99, 3⟩, true⟩ ∧
    (DrmFbGetFromBo ⟨some 4, some 7⟩ 99 ⟨some ⟨99, 3⟩, true⟩).attempts = [] ∧
    (DrmFbGetFromBo ⟨some 4, some 7⟩ 99
      ((DrmFbGetFromBo ⟨some 4, some 7⟩ 99 ⟨none, false⟩).state)).fb =
      (DrmFbGetFromBo ⟨some 4, some 7⟩ 99 ⟨none, false⟩).fb := by
  have h1 := (drmFbGetFromBo_idempotent ⟨some 4, some 7⟩ 99 ⟨some ⟨99, 3⟩, true⟩).1
    ⟨99, 3⟩ rfl rfl
  have h2 := (drmFbGetFromBo_idempotent ⟨some 4, some 7⟩ 99 ⟨none, false⟩).2.1
  exact ⟨h1.1, h1.2.1, h1.2.2, h2⟩

/-- Claim C5: whenever registration is attempted, the modifier-aware call
comes first; the legacy call is made exactly when registration was
attempted and the modifier-aware call failed; and when both fail the
result is absent and the freshly allocated descriptor is released. -/
theorem drmFbGetFromBo_fallbackOrder (env : DrmEnv) (guiFormat : Nat) (s : BoState) :
    ((DrmFbGetFromBo env guiFormat s).attempts ≠ [] →
      (DrmFbGetFromBo env guiFormat s).attempts.head? = some RegAttempt.modifierAware) ∧
    (RegAttempt.legacy ∈ (DrmFbGetFromBo env guiFormat s).attempts ↔
      ((DrmFbGetFromBo env guiFormat s).attempts ≠ [] ∧ env.addFB2WithModifiers = none)) ∧
    ((DrmFbGetFromBo env guiFormat s).attempts ≠ [] → env.addFB2WithModifiers = none →
      env.addFB2 = none →
      (DrmFbGetFromBo env guiFormat s).fb = none ∧
      (DrmFbGetFromBo env guiFormat s).descriptorReleased = true) := by
  have hreg :
      ((drmFbRegister env guiFormat s).attempts.head? = some RegAttempt.modifierAware) ∧
      (RegAttempt.legacy ∈ (drmFbRegister env guiFormat s).attempts ↔
        env.addFB2WithModifiers = none) ∧
      (env.addFB2WithModifiers = none → env.addFB2 = none →
        (drmFbRegister env guiFormat s).fb = none ∧
        (drmFbRegister env guiFormat s).descriptorReleased = true) := by
    cases h1 : env.addFB2WithModifiers with
    | some id => simp [drmFbRegister, h1]
    | none =>
      cases h2 : env.addFB2 with
      | some id => simp [drmFbRegister, h1, h2]
      | none => simp [drmFbRegister, h1, h2]
  cases hs : s.userData with
  | none =>
    refine ⟨fun _ => ?_, ?_, fun _ h1 h2 => ?_⟩
    · simpa [DrmFbGetFromBo, hs] using hreg.1
    · have hne : (drmFbRegister env guiFormat s).attempts ≠ [] := by
        rcases h1 : env.addFB2WithModifiers with _ | id <;>
          rcases h2 : env.addFB2 with _ | id' <;> simp [drmFbRegister, h1, h2]
      simpa [DrmFbGetFromBo, hs, hne] using hreg.2.1
    · simpa [DrmFbGetFromBo, hs] using hreg.2.2 h1 h2
  | some fb0 =>
    by_cases hf : guiFormat == fb0.format
    · refine ⟨fun hne => ?_, ?_, fun hne _ _ => ?_⟩
      · exact absurd (by simp [DrmFbGetFromBo, hs, hf]) hne
      · simp [DrmFbGetFromBo, hs, hf]
      · exact absurd (by simp [DrmFbGetFromBo, hs, hf]) hne
    · refine ⟨fun _ => ?_, ?_, fun _ h1 h2 => ?_⟩
      · simpa [DrmFbGetFromBo, hs, hf] using hreg.1
      · have hne : (drmFbRegister env guiFormat s).attempts ≠ [] := by
          rcases h1 : env.addFB2WithModifiers with _ | id <;>
            rcases h2 : env.addFB2 with _ | id' <;> simp [drmFbRegister, h1, h2]
        simpa [DrmFbGetFromBo, hs, hf, hne] using hreg.2.1
      · simpa [DrmFbGetFromBo, hs, hf] using hreg.2.2 h1 h2

/-- Claim C5 witness: with both driver calls failing on a fresh buffer, the
attempts are modifier-aware then legacy, the result is absent, and the
descriptor is released; with the modifier-aware call succeeding, legacy is
never attempted. -/
theorem drmFbGetFromBo_fallbackOrder_witness :
    (DrmFbGetFromBo ⟨none, none⟩ 99 ⟨none, false⟩).attempts.head?
      = some RegAttempt.modifierAware ∧
    RegAttempt.legacy ∈ (DrmFbGetFromBo ⟨none, none⟩ 99 ⟨none, false⟩).attempts ∧
    (DrmFbGetFromBo ⟨none, none⟩ 99 ⟨none, false⟩).fb = none ∧
    (DrmFbGetFromBo ⟨none, none⟩ 99 ⟨none, false⟩).descriptorReleased = true ∧
    RegAttempt.legacy ∉ (DrmFbGetFromBo ⟨some 4, none⟩ 99 ⟨none, false⟩).attempts := by
  have h := drmFbGetFromBo_fallbackOrder ⟨none, none⟩ 99 ⟨none, false⟩
  have h' := drmFbGetFromBo_fallbackOrder ⟨some 4, none⟩ 99 ⟨none, false⟩
  have hb := h.2.2 (by decide) rfl rfl
  refine ⟨h.1 (by decide), h.2.1.mpr ⟨by decide, rfl⟩, hb.1, hb.2, ?_⟩
  intro hmem
  exact absurd (h'.2.1.mp hmem).2 (by decide)

/-- Claim C10: when a buffer with no cached framebuffer fails both
registration attempts, the call returns an absent result and leaves the
buffer exactly as it was — no framebuffer association and no destroy
callback — and a subsequent call on that state re-attempts registration
from scratch (modifier-aware then legacy); moreover, starting from a
buffer with no callback, a callback is attached only when the call
returns a framebuffer. -/
theorem drmFbGetFromBo_failureLeavesStateUnchanged (env : DrmEnv) (guiFormat : Nat)
    (s : BoState) :
    (s.userData = none → env.addFB2WithModifiers = none → env.addFB2 = none →
      (DrmFbGetFromBo env guiFormat s).fb = none ∧
      (DrmFbGetFromBo env guiFormat s).state = s ∧
      (DrmFbGetFromBo env guiFormat ((DrmFbGetFromBo env guiFormat s).state)).attempts
        = [RegAttempt.modifierAware, RegAttempt.legacy]) ∧
    (s.callbackAttached = false →
      (DrmFbGetFromBo env guiFormat s).state.callbackAttached = true →
      ∃ fb, (DrmFbGetFromBo env guiFormat s).fb = some fb) := by
  constructor
  · intro hs h1 h2
    refine ⟨?_, ?_, ?_⟩ <;> simp [DrmFbGetFromBo, drmFbRegister, hs, h1, h2]
  · intro hcb hcb'
    have hregcases :
        (drmFbRegister env guiFormat s).state.callbackAttached = true →
        ∃ fb, (drmFbRegister env guiFormat s).fb = some fb := by
      intro ht
      cases h1 : env.addFB2WithModifiers with
      | some id => exact ⟨⟨guiFormat, id⟩, by simp [drmFbRegister, h1]⟩
      | none =>
        cases h2 : env.addFB2 with
        | some id => exact ⟨⟨guiFormat, id⟩, by simp [drmFbRegister, h1, h2]⟩
        | none =>
          rw [show (drmFbRegister env guiFormat s).state = s by
            simp [drmFbRegister, h1, h2], hcb] at ht
          exact absurd ht (by simp)
    cases hs : s.userData with
    | none =>
      rw [show DrmFbGetFromBo env guiFormat s = drmFbRegister env guiFormat s by
        simp [DrmFbGetFromBo, hs]] at hcb' ⊢
      exact hregcases hcb'
    | some fb0 =>
      by_cases hf : guiFormat == fb0.format
      · exfalso
        rw [show (DrmFbGetFromBo env guiFormat s).state = s by
          simp [DrmFbGetFromBo, hs, hf], hcb] at hcb'
        exact absurd hcb' (by simp)
      · rw [show DrmFbGetFromBo env guiFormat s = drmFbRegister env guiFormat s by
          simp [DrmFbGetFromBo, hs, hf]] at hcb' ⊢
        exact hregcases hcb'

/-- Claim C10 witness: a fresh buffer whose two registration attempts fail
comes back byte-identical (no association, no callback), the retry issues
both attempts again, and a successful call is the only way the callback
gets attached. -/
theorem drmFbGetFromBo_failureLeavesStateUnchanged_witness :
    (DrmFbGetFromBo ⟨none, none⟩ 99 ⟨none, false⟩).fb = none ∧
    (DrmFbGetFromBo ⟨none, none⟩ 99 ⟨none, false⟩).state = ⟨none, false⟩ ∧
    (DrmFbGetFromBo ⟨none, none⟩ 99
      ((DrmFbGetFromBo ⟨none, none⟩ 99 ⟨none, false⟩).state)).attempts
      = [RegAttempt.modifierAware, RegAttempt.legacy] ∧
    (∃ fb, (DrmFbGetFromBo ⟨some 4, none⟩ 99 ⟨none, false⟩).fb = some fb) := by
  have h := (drmFbGetFromBo_failureLeavesStateUnchanged ⟨none, none⟩ 99 ⟨none, false⟩).1
    rfl rfl rfl
  have h2 := (drmFbGetFromBo_failureLeavesStateUnchanged ⟨some 4, none⟩ 99 ⟨none, false⟩).2
    rfl (by decide)
  exact ⟨h.1, h.2.1, h.2.2, h2⟩

/-! ### Loop lemmas for `FindPlanes` -/

theorem findGuiPlane_ne_vid (planes : List Plane) (i vid : Nat) (g : Plane)
    (h : findGuiPlane planes i vid = some g) : g.planeId ≠ vid := by
  have hp := List.find?_some h
  simp only [Bool.and_eq_true, bne_iff_ne, ne_eq] at hp
  exact hp.2.1

theorem findPlanesLoop_firstBoth (e : Encoder) (planes : List Plane) :
    ∀ (cs : List Crtc) (idx : Nat) (sel : PlanesSel) (i : Nat) (c : Crtc),
    cs[i]? = some c → commitBoth planes (idx + i) = true →
    (∀ j ∈ List.range i, commitBoth planes (idx + j) = false) →
    findPlanesLoop e planes cs idx sel =
      ⟨some c, findVideoPlane planes (idx + i),
        findGuiPlane planes (idx + i) (vidOf planes (idx + i))⟩ := by
  intro cs
  induction cs with
  | nil => intro idx sel i c h; simp at h
  | cons c0 rest ih =>
    intro idx sel i c hc hboth hprev
    cases i with
    | zero =>
      rw [List.getElem?_cons_zero] at hc
      cases hc
      rw [Nat.add_zero] at hboth ⊢
      simp only [commitBoth, Bool.and_eq_true, Option.isSome_iff_exists] at hboth
      obtain ⟨⟨v, hv⟩, g, hg⟩ := hboth
      simp [findPlanesLoop, hv, hg]
    | succ j =>
      rw [List.getElem?_cons_succ] at hc
      have h0 : commitBoth planes idx = false := by
        simpa using hprev 0 (by simp [List.mem_range])
      have hprev' : ∀ j' ∈ List.range j, commitBoth planes (idx + 1 + j') = false := by
        intro j' hj'
        rw [List.mem_range] at hj'
        have := hprev (j' + 1) (by rw [List.mem_range]; omega)
        simpa [show idx + (j' + 1) = idx + 1 + j' by omega] using this
      have hboth' : commitBoth planes (idx + 1 + j) = true := by
        simpa [show idx + (j + 1) = idx + 1 + j by omega] using hboth
      have hrec := fun sel' => ih (idx + 1) sel' j c hc hboth' hprev'
      rw [show idx + (j + 1) = idx + 1 + j by omega]
      rcases hvp : findVideoPlane planes idx with _ | v <;>
        rcases hgp : findGuiPlane planes idx (vidOf planes idx) with _ | g
      · simpa [findPlanesLoop, hvp, hgp] using hrec sel
      · by_cases hcond : (sel.crtc.isNone && e.crtcId == c0.crtcId)
        · simpa [findPlanesLoop, hvp, hgp, hcond] using
            hrec { sel with crtc := some c0, guiPlane := some g }
        · simpa [findPlanesLoop, hvp, hgp, hcond] using hrec sel
      · simpa [findPlanesLoop, hvp, hgp] using hrec sel
      · exact absurd h0 (by simp [commitBoth, hvp, hgp])

theorem findPlanesLoop_distinct (e : Encoder) (planes : List Plane) :
    ∀ (cs : List Crtc) (idx : Nat) (sel : PlanesSel), sel.videoPlane = none →
    ∀ v g, (findPlanesLoop e planes cs idx sel).videoPlane = some v →
    (findPlanesLoop e planes cs idx sel).guiPlane = some g →
    v.planeId ≠ g.planeId := by
  intro cs
  induction cs with
  | nil =>
    intro idx sel hsel v g hv hg
    rw [findPlanesLoop, hsel] at hv
    cases hv
  | cons c0 rest ih =>
    intro idx sel hsel v g hv hg
    rcases hvp : findVideoPlane planes idx with _ | v0 <;>
      rcases hgp : findGuiPlane planes idx (vidOf planes idx) with _ | g0
    · simp only [findPlanesLoop, hvp, hgp] at hv hg
      exact ih (idx + 1) sel hsel v g hv hg
    · by_cases hcond : (sel.crtc.isNone && e.crtcId == c0.crtcId)
      · simp only [findPlanesLoop, hvp, hgp, hcond, if_true] at hv hg
        exact ih (idx + 1) { sel with crtc := some c0, guiPlane := some g0 }
          (by simpa using hsel) v g hv hg
      · simp only [findPlanesLoop, hvp, hgp, hcond, if_false] at hv hg
        exact ih (idx + 1) sel hsel v g hv hg
    · simp only [findPlanesLoop, hvp, hgp] at hv hg
      exact ih (idx + 1) sel hsel v g hv hg
    · simp only [findPlanesLoop, hvp, hgp] at hv hg
      cases hv
      cases hg
      have hvid : vidOf planes idx = v.planeId := by simp [vidOf, hvp]
      have hne := findGuiPlane_ne_vid planes idx (vidOf planes idx) g hgp
      rw [hvid] at hne
      exact hne.symm

/-- Claim C3: whenever `FindPlanes` ends with both a video plane and a GUI
plane selected, their plane identities differ — the GUI-plane search
explicitly excludes the video candidate's id, and both roles are only
ever committed together by that search's result. -/
theorem findPlanes_distinctRoles (e : Encoder) (crtcs : List Crtc) (planes : List Plane)
    (v g : Plane) (hv : (FindPlanes e crtcs planes).1.videoPlane = some v)
    (hg : (FindPlanes e crtcs planes).1.guiPlane = some g) :
    v.planeId ≠ g.planeId :=
  findPlanesLoop_distinct e planes crtcs 0 ⟨none, none, none⟩ rfl v g hv hg

/-- Claim C3 witness: a CRTC with an NV12 plane (id 2) and a dual-format
plane (id 3) commits both, and the committed identities differ. -/
theorem findPlanes_distinctRoles_witness :
    (FindPlanes ⟨1, 5, 0⟩ [⟨5⟩, ⟨6⟩]
      [⟨1, 1, [DRM_FORMAT_XRGB8888]⟩, ⟨2, 2, [DRM_FORMAT_NV12]⟩,
       ⟨3, 2, [DRM_FORMAT_XRGB8888, DRM_FORMAT_ARGB8888]⟩]).1.videoPlane
      = some ⟨2, 2, [DRM_FORMAT_NV12]⟩ ∧
    (FindPlanes ⟨1, 5, 0⟩ [⟨5⟩, ⟨6⟩]
      [⟨1, 1, [DRM_FORMAT_XRGB8888]⟩, ⟨2, 2, [DRM_FORMAT_NV12]⟩,
       ⟨3, 2, [DRM_FORMAT_XRGB8888, DRM_FORMAT_ARGB8888]⟩]).1.guiPlane
      = some ⟨3, 2, [DRM_FORMAT_XRGB8888, DRM_FORMAT_ARGB8888]⟩ ∧
    (2 : Nat) ≠ 3 := by
  refine ⟨by decide, by decide, ?_⟩
  exact findPlanes_distinctRoles ⟨1, 5, 0⟩ [⟨5⟩, ⟨6⟩]
    [⟨1, 1, [DRM_FORMAT_XRGB8888]⟩, ⟨2, 2, [DRM_FORMAT_NV12]⟩,
     ⟨3, 2, [DRM_FORMAT_XRGB8888, DRM_FORMAT_ARGB8888]⟩]
    ⟨2, 2, [DRM_FORMAT_NV12]⟩ ⟨3, 2, [DRM_FORMAT_XRGB8888, DRM_FORMAT_ARGB8888]⟩
    (by decide) (by decide)

/-- Claim C2, amended: per CRTC the code's video candidate is the FIRST
attachable NV12-capable plane in plane order, and the GUI candidate must
differ from that particular plane; if, for CRTC index `i`, that first
NV12-capable plane exists and some distinct attachable plane supports both
XRGB8888 and ARGB8888, and no earlier CRTC satisfied the same condition,
then `FindPlanes` commits CRTC `i` with exactly those two candidates —
overriding any tentative GUI-only commitment an earlier CRTC may have
made — and scanning stops there (CRTCs beyond index `i` are irrelevant).
The original claim's purely existential hypothesis (any NV12-capable
plane plus any distinct dual-format plane) is not sufficient: see the
counterexample. -/
theorem findPlanes_firstBothCrtc (e : Encoder) (crtcs : List Crtc) (planes : List Plane)
    (i : Nat) (c : Crtc) (hc : crtcs[i]? = some c)
    (hboth : commitBoth planes i = true)
    (hprev : ∀ j ∈ List.range i, commitBoth planes j = false) :
    (FindPlanes e crtcs planes).1 =
      ⟨some c, findVideoPlane planes i, findGuiPlane planes i (vidOf planes i)⟩ ∧
    (FindPlanes e (crtcs.take (i + 1)) planes).1 = (FindPlanes e crtcs planes).1 := by
  have hzero : ∀ j : Nat, 0 + j = j := fun j => Nat.zero_add j
  have h1 := findPlanesLoop_firstBoth e planes crtcs 0 ⟨none, none, none⟩ i c hc
    (by simpa [hzero] using hboth) (by simpa [hzero] using hprev)
  have hc' : (crtcs.take (i + 1))[i]? = some c := by
    rw [List.getElem?_take]
    simpa using hc
  have h2 := findPlanesLoop_firstBoth e planes (crtcs.take (i + 1)) 0 ⟨none, none, none⟩ i c
    hc' (by simpa [hzero] using hboth) (by simpa [hzero] using hprev)
  constructor
  · simpa [hzero] using h1
  · show findPlanesLoop e planes (crtcs.take (i + 1)) 0 ⟨none, none, none⟩ =
      findPlanesLoop e planes crtcs 0 ⟨none, none, none⟩
    rw [h1, h2]

/-- Claim C2, counterexample to the claim as stated: CRTC 0 carries plane
2 supporting NV12 and the distinct plane 1 supporting both XRGB8888 and
ARGB8888 (both attachable), yet `FindPlanes` commits nothing — the code's
video candidate is plane 1 (the first NV12-capable plane), and no other
attachable plane offers the two RGB formats, so the GUI search fails. -/
theorem findPlanes_existentialHyp_counterexample :
    ((⟨2, 1, [DRM_FORMAT_NV12]⟩ : Plane).possibleCrtcs.testBit 0 = true) ∧
    ((⟨2, 1, [DRM_FORMAT_NV12]⟩ : Plane).SupportsFormat DRM_FORMAT_NV12 = true) ∧
    ((⟨1, 1, [DRM_FORMAT_NV12, DRM_FORMAT_XRGB8888, DRM_FORMAT_ARGB8888]⟩ :
        Plane).possibleCrtcs.testBit 0 = true) ∧
    ((⟨1, 1, [DRM_FORMAT_NV12, DRM_FORMAT_XRGB8888, DRM_FORMAT_ARGB8888]⟩ :
        Plane).SupportsFormat DRM_FORMAT_XRGB8888 = true) ∧
    ((⟨1, 1, [DRM_FORMAT_NV12, DRM_FORMAT_XRGB8888, DRM_FORMAT_ARGB8888]⟩ :
        Plane).SupportsFormat DRM_FORMAT_ARGB8888 = true) ∧
    (1 : Nat) ≠ 2 ∧
    (FindPlanes ⟨1, 5, 0⟩ [⟨5⟩]
      [⟨1, 1, [DRM_FORMAT_NV12, DRM_FORMAT_XRGB8888, DRM_FORMAT_ARGB8888]⟩,
       ⟨2, 1, [DRM_FORMAT_NV12]⟩]).1 = ⟨none, none, none⟩ := by
  decide

/-- Claim C2 witness: CRTC 0 (matching the encoder's bound CRTC) offers
only a GUI candidate and is tentatively committed, but CRTC 1 offers both
candidates, so the final commitment is CRTC 1 with video plane 2 and GUI
plane 3, and truncating the CRTC list right after index 1 changes
nothing. -/
theorem findPlanes_firstBothCrtc_witness :
    (FindPlanes ⟨1, 5, 0⟩ [⟨5⟩, ⟨6⟩]
      [⟨1, 1, [DRM_FORMAT_XRGB8888]⟩, ⟨2, 2, [DRM_FORMAT_NV12]⟩,
       ⟨3, 2, [DRM_FORMAT_XRGB8888, DRM_FORMAT_ARGB8888]⟩]).1 =
      ⟨some ⟨6⟩, some ⟨2, 2, [DRM_FORMAT_NV12]⟩,
        some ⟨3, 2, [DRM_FORMAT_XRGB8888, DRM_FORMAT_ARGB8888]⟩⟩ ∧
    (FindPlanes ⟨1, 5, 0⟩ (([⟨5⟩, ⟨6⟩] : List Crtc).take 2)
      [⟨1, 1, [DRM_FORMAT_XRGB8888]⟩, ⟨2, 2, [DRM_FORMAT_NV12]⟩,
       ⟨3, 2, [DRM_FORMAT_XRGB8888, DRM_FORMAT_ARGB8888]⟩]).1 =
    (FindPlanes ⟨1, 5, 0⟩ [⟨5⟩, ⟨6⟩]
      [⟨1, 1, [DRM_FORMAT_XRGB8888]⟩, ⟨2, 2, [DRM_FORMAT_NV12]⟩,
       ⟨3, 2, [DRM_FORMAT_XRGB8888, DRM_FORMAT_ARGB8888]⟩]).1 := by
  have h := findPlanes_firstBothCrtc ⟨1, 5, 0⟩ [⟨5⟩, ⟨6⟩]
    [⟨1, 1, [DRM_FORMAT_XRGB8888]⟩, ⟨2, 2, [DRM_FORMAT_NV12]⟩,
     ⟨3, 2, [DRM_FORMAT_XRGB8888, DRM_FORMAT_ARGB8888]⟩] 1 ⟨6⟩
    (by decide) (by decide) (by decide)
  exact ⟨by rw [h.1]; decide, h.2⟩

end DRMUtils
